import Mathlib

/-
Verification of helixTool.cpp, a Maya tool command that generates a
helical NURBS curve.

The embedding follows the source directly:

  * `helixTool` mirrors the C++ class fields `radius`, `pitch`, `numCV`,
    `upDown` and `path` (the DAG path to the created curve, modelled as
    an optional transform-node id).
  * The constructor `helixTool::helixTool` assigns only `numCV = 20` and
    `upDown = false`; the members `radius` and `pitch` stay uninitialized.
    `helixTool.defaultNew` therefore takes the indeterminate initial
    contents of those two members as parameters `r0` and `p0`.
  * `redoIt` computes `spans = ncvs - deg` and `nknots = spans + 2*deg - 1`
    in C `unsigned` (32-bit wraparound) arithmetic, modelled by `usub32`
    and `uadd32` over `Nat`.
  * Doubles are modelled as real numbers; `cos`/`sin` are `Real.cos` and
    `Real.sin` (the C library functions take radians, as does `Real.cos`).
  * External collaborators: `MFnNurbsCurve::create` is a parameter
    `create : List Point3 → List ℝ → Option ℕ` returning the transform id
    of the created curve or `none` on failure; `MGlobal::deleteNode` acts
    on a scene modelled as the list of live node ids.
-/

/-- Status codes returned by the command operations, mirroring MStatus. -/
inductive MStatus where
  | kSuccess : MStatus
  | kFailure : MStatus
deriving DecidableEq

/-- A 3D point, as used for control vertices (MPoint with unit w). -/
abbrev Point3 : Type := ℝ × ℝ × ℝ

/-- State of the helixTool command object: the four parameter fields and
the stored DAG path of the created curve (transform id, `none` when no
curve has been stored). -/
structure helixTool where
  radius : ℝ
  pitch : ℝ
  numCV : ℕ
  upDown : Bool
  path : Option ℕ

/-- Embedding of the constructor `helixTool::helixTool`: it assigns
`numCV = 20` and `upDown = false` only.  The data members `radius` and
`pitch` are not assigned anywhere in the constructor, so their values are
the indeterminate contents `r0`, `p0` that the memory happened to hold;
the member `path` is a default-constructed (invalid) MDagPath. -/
def helixTool.defaultNew (r0 p0 : ℝ) : helixTool :=
  { radius := r0, pitch := p0, numCV := 20, upDown := false, path := none }

/-- Modulus of C `unsigned int` arithmetic. -/
def u32 : ℕ := 2 ^ 32

/-- Addition of two `unsigned` values (inputs already reduced mod 2^32). -/
def uadd32 (a b : ℕ) : ℕ := (a + b) % u32

/-- Subtraction of two `unsigned` values (inputs already reduced mod
2^32): wraps around on underflow exactly as C unsigned subtraction. -/
def usub32 (a b : ℕ) : ℕ := (a + (u32 - b)) % u32

/-- The fixed curve degree, `const unsigned deg = 3` in `redoIt`. -/
def deg : ℕ := 3

/-- Number of spans, `const unsigned spans = ncvs - deg` in `redoIt`
(unsigned arithmetic). -/
def spans (ncvs : ℕ) : ℕ := usub32 ncvs deg

/-- Number of knots, `const unsigned nknots = spans + 2*deg - 1` in
`redoIt` (unsigned arithmetic). -/
def nknots (ncvs : ℕ) : ℕ := usub32 (uadd32 (spans ncvs) (2 * deg)) 1

/-- The factor `upFactor`, set to `-1` when `upDown` holds and `1`
otherwise; it multiplies the vertical coordinate. -/
def upFactor (ud : Bool) : ℝ := if ud then -1 else 1

/-- The control-vertex generation loop of `redoIt`:
`controlVertices.append(MPoint(radius*cos(i), upFactor*pitch*i, radius*sin(i)))`
for `i = 0, …, ncvs - 1`. -/
noncomputable def controlVertices (radius pitch : ℝ) (ncvs : ℕ) (ud : Bool) :
    List Point3 :=
  (List.range ncvs).map fun i : ℕ =>
    (radius * Real.cos (i : ℝ), upFactor ud * pitch * (i : ℝ),
      radius * Real.sin (i : ℝ))

/-- The knot generation loop of `redoIt`:
`knotSequences.append((double) i)` for `i = 0, …, nknots - 1`. -/
def knotSequences (ncvs : ℕ) : List ℝ :=
  (List.range (nknots ncvs)).map fun i : ℕ => (i : ℝ)

/-- Result of fetching one flag from the argument database: the flag was
not supplied, or it was supplied and its value converted to the declared
type, or it was supplied and `getFlagArgument` failed to convert it. -/
inductive FlagArg (α : Type) where
  | notSet : FlagArg α
  | parsed : α → FlagArg α
  | invalid : FlagArg α

/-- The argument database seen by `parseArgs`: one entry per declared
flag (`-p`, `-r`, `-ncv`, `-ud`). -/
structure ArgDb where
  pitchFlag : FlagArg ℝ
  radiusFlag : FlagArg ℝ
  numCVFlag : FlagArg ℕ
  upDownFlag : FlagArg Bool

/-- Fourth block of `parseArgs`: the `-ud` flag. -/
def parseUpDownBlock (t : helixTool) (a : ArgDb) : MStatus × helixTool :=
  match a.upDownFlag with
  | FlagArg.notSet => (MStatus.kSuccess, t)
  | FlagArg.invalid => (MStatus.kFailure, t)
  | FlagArg.parsed v => (MStatus.kSuccess, { t with upDown := v })

/-- Third block of `parseArgs`: the `-ncv` flag, then the `-ud` block. -/
def parseNumCVBlock (t : helixTool) (a : ArgDb) : MStatus × helixTool :=
  match a.numCVFlag with
  | FlagArg.notSet => parseUpDownBlock t a
  | FlagArg.invalid => (MStatus.kFailure, t)
  | FlagArg.parsed v => parseUpDownBlock { t with numCV := v } a

/-- Second block of `parseArgs`: the `-r` flag, then the `-ncv` block. -/
def parseRadiusBlock (t : helixTool) (a : ArgDb) : MStatus × helixTool :=
  match a.radiusFlag with
  | FlagArg.notSet => parseNumCVBlock t a
  | FlagArg.invalid => (MStatus.kFailure, t)
  | FlagArg.parsed v => parseNumCVBlock { t with radius := v } a

/-- Embedding of `helixTool::parseArgs`: the flags are examined in source
order `-p`, `-r`, `-ncv`, `-ud`; a flag that is set and converts
overwrites the corresponding field; a flag that is set but fails to
convert makes the whole call return failure at once (fields assigned by
the earlier blocks keep their new values). -/
def helixTool.parseArgs (t : helixTool) (a : ArgDb) : MStatus × helixTool :=
  match a.pitchFlag with
  | FlagArg.notSet => parseRadiusBlock t a
  | FlagArg.invalid => (MStatus.kFailure, t)
  | FlagArg.parsed v => parseRadiusBlock { t with pitch := v } a

/-- Embedding of `helixTool::redoIt`: generates the control vertices and
knots from the stored parameters and hands them to the external curve
constructor `create` (MFnNurbsCurve::create).  On failure the method
returns the failing status without touching the stored path or the
scene; on success `curveFn.getPath(path)` stores the new handle and the
new transform node lives in the scene. -/
noncomputable def helixTool.redoIt (t : helixTool)
    (create : List Point3 → List ℝ → Option ℕ) (scene : List ℕ) :
    MStatus × helixTool × List ℕ :=
  match create (controlVertices t.radius t.pitch t.numCV t.upDown)
      (knotSequences t.numCV) with
  | none => (MStatus.kFailure, t, scene)
  | some tr => (MStatus.kSuccess, { t with path := some tr }, tr :: scene)

/-- Embedding of `helixTool::doIt`: parse the arguments; on failure
return that status at once (no scene mutation), otherwise run `redoIt`. -/
noncomputable def helixTool.doIt (t : helixTool) (a : ArgDb)
    (create : List Point3 → List ℝ → Option ℕ) (scene : List ℕ) :
    MStatus × helixTool × List ℕ :=
  match t.parseArgs a with
  | (MStatus.kFailure, t1) => (MStatus.kFailure, t1, scene)
  | (MStatus.kSuccess, t1) => t1.redoIt create scene

/-- Embedding of `helixTool::undoIt`: resolve the transform that owns
the stored path and ask `MGlobal::deleteNode` to remove it from the
scene.  Deletion succeeds exactly when the node is still live.  The
method only returns the status: the member `path` is never written. -/
def helixTool.undoIt (t : helixTool) (scene : List ℕ) :
    MStatus × helixTool × List ℕ :=
  match t.path with
  | none => (MStatus.kFailure, t, scene)
  | some tr =>
      if tr ∈ scene then (MStatus.kSuccess, t, scene.erase tr)
      else (MStatus.kFailure, t, scene)

/-- Embedding of `helixTool::isUndoable`: always true. -/
def helixTool.isUndoable (_ : helixTool) : Bool := true

/-- Helper: the knot list has exactly `nknots ncvs` entries. -/
theorem knotSequences_length (ncvs : ℕ) :
    (knotSequences ncvs).length = nknots ncvs := by
  rw [knotSequences, List.length_map, List.length_range]

/-- Helper: `parseArgs` never writes the `path` member, whatever the
outcome of the four flag blocks. -/
theorem parseArgs_preserves_path (t : helixTool) (a : ArgDb) :
    ((t.parseArgs a).2).path = t.path := by
  rcases a with ⟨pa, ra, na, ua⟩
  cases pa <;> cases ra <;> cases na <;> cases ua <;> rfl

/-- Claim C1, counterexample: the constructor assigns only `numCV` and
`upDown`; `radius` and `pitch` keep the indeterminate contents of the
uninitialized members, so a post-construction state in which those
members happened to hold 0 refutes the claimed defaults 2.0 and 0.25. -/
theorem helix_C1_counterexample :
    ¬ ((helixTool.defaultNew 0 0).radius = 2 ∧
       (helixTool.defaultNew 0 0).pitch = 0.25 ∧
       (helixTool.defaultNew 0 0).numCV = 20 ∧
       (helixTool.defaultNew 0 0).upDown = false) := by
  intro h
  have h0 : (0 : ℝ) = 2 := h.1
  norm_num at h0

/-- Claim C1, amended: after default construction the command holds
`controlVertexCount = 20`, `upsideDown = false` and no stored curve
handle; `radius` and `pitch` are not assigned by the constructor and
keep whatever indeterminate values the memory held. -/
theorem helix_C1_ctor_fields (r0 p0 : ℝ) :
    (helixTool.defaultNew r0 p0).numCV = 20 ∧
    (helixTool.defaultNew r0 p0).upDown = false ∧
    (helixTool.defaultNew r0 p0).radius = r0 ∧
    (helixTool.defaultNew r0 p0).pitch = p0 ∧
    (helixTool.defaultNew r0 p0).path = none :=
  ⟨rfl, rfl, rfl, rfl, rfl⟩

/-- Claim C2: for every parameter set and every index `i` below the
control-vertex count, the generation step produces
`controlVertex[i] = (radius * cos i, upFactor * pitch * i, radius * sin i)`
with `upFactor = -1` when upside down and `1` otherwise, the angle `i`
in radians. -/
theorem helix_C2_control_vertex (radius pitch : ℝ) (ncvs : ℕ) (ud : Bool)
    (i : ℕ) (h : i < ncvs) :
    (controlVertices radius pitch ncvs ud)[i]? =
      some (radius * Real.cos (i : ℝ),
        (if ud then (-1 : ℝ) else 1) * pitch * (i : ℝ),
        radius * Real.sin (i : ℝ)) := by
  rw [controlVertices, List.getElem?_map, List.getElem?_range h]
  rfl

/-- Claim C2, witness at the default parameters and index 1. -/
theorem helix_C2_control_vertex_witness :
    (1 : ℕ) < 20 ∧
    (controlVertices 2 (1/4) 20 false)[(1 : ℕ)]? =
      some (2 * Real.cos ((1 : ℕ) : ℝ),
        (if false then (-1 : ℝ) else 1) * (1/4) * ((1 : ℕ) : ℝ),
        2 * Real.sin ((1 : ℕ) : ℝ)) :=
  ⟨by norm_num, helix_C2_control_vertex 2 (1/4) 20 false 1 (by norm_num)⟩

/-- Claim C3, counterexample: at `controlVertexCount = 4294967294`
(which is greater than 3) the unsigned computation `spans + 2*deg - 1`
wraps around 2^32, so the generated knot list is empty instead of
holding `spans + 5` knots. -/
theorem helix_C3_counterexample :
    3 < 4294967294 ∧ (knotSequences 4294967294).length = 0 ∧
      (4294967294 - 3) + 5 ≠ 0 := by
  refine ⟨by norm_num, ?_, by norm_num⟩
  rw [knotSequences, List.length_map, List.length_range]
  decide

/-- Claim C3, amended: for every parameter set with
`3 < controlVertexCount ≤ 2^32 - 3` the knot sequence is `knot[i] = i`
for `i` in `[0, spans + 5)` with `spans = controlVertexCount - 3`, so
the knot count is `spans + 5`; for the two remaining unsigned values
`2^32 - 2` and `2^32 - 1` the knot-count computation wraps mod 2^32. -/
theorem helix_C3_knot_vector (c : ℕ) (h3 : 3 < c) (hub : c ≤ 2 ^ 32 - 3) :
    spans c = c - 3 ∧
    (knotSequences c).length = (c - 3) + 5 ∧
    (∀ i : ℕ, i < (c - 3) + 5 → (knotSequences c)[i]? = some (i : ℝ)) := by
  have e : (2 : ℕ) ^ 32 = 4294967296 := by norm_num
  rw [e] at hub
  have hs : spans c = c - 3 := by
    rw [spans, usub32, deg, u32, e]
    omega
  have hn : nknots c = (c - 3) + 5 := by
    rw [nknots, uadd32, usub32, hs, deg, u32, e]
    omega
  refine ⟨hs, ?_, ?_⟩
  · rw [knotSequences, List.length_map, List.length_range, hn]
  · intro i hi
    have hi' : i < nknots c := by rw [hn]; exact hi
    rw [knotSequences, List.getElem?_map, List.getElem?_range hi']
    rfl

/-- Claim C3, witness at the default control-vertex count 20: 17 spans
and 22 knots. -/
theorem helix_C3_knot_vector_witness :
    spans 20 = 17 ∧ (knotSequences 20).length = 22 := by
  have h := helix_C3_knot_vector 20 (by norm_num) (by norm_num)
  exact ⟨h.1, h.2.1⟩

/-- Claim C4, counterexample: a command holding the curve path 5 in a
scene where node 5 is live undoes successfully, yet afterwards the
stored handle is still `some 5` — `undoIt` never clears the member
`path`, refuting the clearing part of the claim. -/
theorem helix_C4_counterexample :
    ((helixTool.mk 0 0 20 false (some 5)).undoIt [5]).1 = MStatus.kSuccess ∧
    ((helixTool.mk 0 0 20 false (some 5)).undoIt [5]).2.1.path = some 5 :=
  ⟨rfl, rfl⟩

/-- Claim C4, amended: on successful `undoIt` the transform node owning
the stored curve handle is removed from the scene by the external
deletion collaborator; the command object itself, including the stored
handle, is left unchanged (the handle is not cleared). -/
theorem helix_C4_undo_deletes (t : helixTool) (tr : ℕ) (scene : List ℕ)
    (hp : t.path = some tr) (hs : tr ∈ scene) :
    t.undoIt scene = (MStatus.kSuccess, t, scene.erase tr) := by
  unfold helixTool.undoIt
  rw [hp]
  simp [hs]

/-- Claim C4, witness: a concrete successful undo deleting node 6. -/
theorem helix_C4_undo_deletes_witness :
    (helixTool.mk 0 0 20 false (some 6)).undoIt [6] =
      (MStatus.kSuccess, helixTool.mk 0 0 20 false (some 6),
        List.erase [6] 6) :=
  helix_C4_undo_deletes (helixTool.mk 0 0 20 false (some 6)) 6 [6] rfl
    (by simp)

/-- Claim C5: for fixed radius, pitch and count, the vertex sequence
generated upside down equals the right-side-up sequence with the Y
component negated at every index, X and Z identical. -/
theorem helix_C5_orientation (radius pitch : ℝ) (ncvs : ℕ) :
    controlVertices radius pitch ncvs true =
      (controlVertices radius pitch ncvs false).map
        fun v : Point3 => (v.1, -v.2.1, v.2.2) := by
  rw [controlVertices, controlVertices, List.map_map]
  refine List.map_congr_left fun i _ => ?_
  simp [upFactor]

/-- The argument database produced by the flag string
`-r 5 -p 1 -ncv 10 -ud true`. -/
def helixArgsOverride : ArgDb :=
  { pitchFlag := FlagArg.parsed 1, radiusFlag := FlagArg.parsed 5,
    numCVFlag := FlagArg.parsed 10, upDownFlag := FlagArg.parsed true }

/-- Claim C6, counterexample: with `-ncv 10` the tool stores
`numCV = 10`, and the generated knot list then has
`nknots = spans + 2*deg - 1 = 12` entries, not the 7 entries claimed. -/
theorem helix_C6_counterexample :
    ((helixTool.defaultNew 0 0).parseArgs helixArgsOverride).2.numCV = 10 ∧
    (knotSequences 10).length ≠ 7 := by
  refine ⟨rfl, ?_⟩
  rw [knotSequences, List.length_map, List.length_range]
  decide

/-- Claim C6, amended: parsing `-r 5 -p 1 -ncv 10 -ud true` succeeds and
stores radius 5, pitch 1, count 10, upside down; generation then gives
vertex 1 = `(5 cos 1, -1, 5 sin 1)` and the knot sequence
`[0, 1, ..., 11]`, that is 12 knots for `spans = 7`. -/
theorem helix_C6_flag_override (r0 p0 : ℝ) :
    ((helixTool.defaultNew r0 p0).parseArgs helixArgsOverride).1 =
      MStatus.kSuccess ∧
    ((helixTool.defaultNew r0 p0).parseArgs helixArgsOverride).2.radius = 5 ∧
    ((helixTool.defaultNew r0 p0).parseArgs helixArgsOverride).2.pitch = 1 ∧
    ((helixTool.defaultNew r0 p0).parseArgs helixArgsOverride).2.numCV = 10 ∧
    ((helixTool.defaultNew r0 p0).parseArgs helixArgsOverride).2.upDown =
      true ∧
    (controlVertices 5 1 10 true)[(1 : ℕ)]? =
      some (5 * Real.cos 1, -1, 5 * Real.sin 1) ∧
    spans 10 = 7 ∧
    knotSequences 10 = (List.range 12).map fun i : ℕ => (i : ℝ) := by
  refine ⟨rfl, rfl, rfl, rfl, rfl, ?_, rfl, rfl⟩
  rw [controlVertices, List.getElem?_map,
    List.getElem?_range (by norm_num : (1 : ℕ) < 10)]
  norm_num [upFactor]

/-- Claim C7: when the external curve constructor rejects the generated
control-vertex and knot data, `redoIt` returns failure with the stored
handle and the scene unchanged (nothing to undo); when it accepts,
`redoIt` returns success, stores the returned transform handle, and the
new node lives in the scene. -/
theorem helix_C7_construction (t : helixTool) (scene : List ℕ)
    (create : List Point3 → List ℝ → Option ℕ) :
    (create (controlVertices t.radius t.pitch t.numCV t.upDown)
        (knotSequences t.numCV) = none →
      t.redoIt create scene = (MStatus.kFailure, t, scene)) ∧
    (∀ tr : ℕ,
      create (controlVertices t.radius t.pitch t.numCV t.upDown)
          (knotSequences t.numCV) = some tr →
      t.redoIt create scene =
        (MStatus.kSuccess, { t with path := some tr }, tr :: scene)) := by
  constructor
  · intro h
    unfold helixTool.redoIt
    rw [h]
  · intro tr h
    unfold helixTool.redoIt
    rw [h]

/-- Claim C7, witness: a constructor that always rejects leaves a
concrete command and scene unchanged. -/
theorem helix_C7_construction_witness :
    (helixTool.defaultNew 2 (1/4)).redoIt (fun _ _ => none) [] =
      (MStatus.kFailure, helixTool.defaultNew 2 (1/4), []) :=
  (helix_C7_construction (helixTool.defaultNew 2 (1/4)) []
    (fun _ _ => none)).1 rfl

/-- The argument database for an invocation whose `-p` value converts
but whose `-r` value fails to convert to a double. -/
def helixArgsBadRadius : ArgDb :=
  { pitchFlag := FlagArg.parsed 9, radiusFlag := FlagArg.invalid,
    numCVFlag := FlagArg.notSet, upDownFlag := FlagArg.notSet }

/-- Claim C8, counterexample: when the `-p` value converts and the `-r`
value fails to convert, `parseArgs` returns failure, yet the pitch
field already holds the new value 9 instead of its pre-parse value
0.25 — the command does not remain in its pre-parse state. -/
theorem helix_C8_counterexample :
    ((helixTool.defaultNew 2 (1/4)).parseArgs helixArgsBadRadius).1 =
      MStatus.kFailure ∧
    (helixTool.defaultNew 2 (1/4)).pitch = 1/4 ∧
    ((helixTool.defaultNew 2 (1/4)).parseArgs helixArgsBadRadius).2.pitch =
      9 ∧
    (9 : ℝ) ≠ 1/4 :=
  ⟨rfl, rfl, rfl, by norm_num⟩

/-- Claim C8, amended: whenever `parseArgs` fails because a supplied
flag value cannot be converted, `doIt` reports the failure at once and
aborts before any scene mutation: the scene is untouched and the stored
curve handle is unchanged (nothing to undo).  Parameter fields of flags
processed before the offending one, however, already hold their newly
parsed values and are not rolled back. -/
theorem helix_C8_parse_abort (t : helixTool) (a : ArgDb) (scene : List ℕ)
    (create : List Point3 → List ℝ → Option ℕ)
    (h : (t.parseArgs a).1 = MStatus.kFailure) :
    t.doIt a create scene = (MStatus.kFailure, (t.parseArgs a).2, scene) ∧
    ((t.parseArgs a).2).path = t.path := by
  refine ⟨?_, parseArgs_preserves_path t a⟩
  unfold helixTool.doIt
  rcases hpa : t.parseArgs a with ⟨s, t1⟩
  rw [hpa] at h
  cases s
  · exact MStatus.noConfusion h
  · rfl

/-- Claim C8, witness: the concrete failing parse aborts `doIt` with
the scene and the stored handle unchanged. -/
theorem helix_C8_parse_abort_witness :
    (helixTool.defaultNew 2 (1/4)).doIt helixArgsBadRadius
        (fun _ _ => none) [] =
      (MStatus.kFailure,
        ((helixTool.defaultNew 2 (1/4)).parseArgs helixArgsBadRadius).2,
        []) ∧
    (((helixTool.defaultNew 2 (1/4)).parseArgs helixArgsBadRadius).2).path =
      (helixTool.defaultNew 2 (1/4)).path :=
  helix_C8_parse_abort (helixTool.defaultNew 2 (1/4)) helixArgsBadRadius []
    (fun _ _ => none) rfl

/-- Claim C9, counterexample: at `controlVertexCount = 3` (equal to the
degree) the subtraction does not underflow at all: `spans` is 0, not a
very large value, refuting the claim for the bound `count ≤ 3`. -/
theorem helix_C9_counterexample :
    spans 3 = 0 ∧ ¬ (2 ^ 32 - 3 ≤ spans 3) := by
  constructor
  · decide
  · decide

/-- Claim C9, amended: for every `controlVertexCount < 3` (strictly
below the degree) the spans computation underflows under unsigned
32-bit arithmetic to `count + 2^32 - 3`, at least `2^32 - 3` — a very
large value; the knot-count computation then wraps again, so the
generated knot sequence has `count + 2` entries, too few for a valid
degree-3 curve; at `controlVertexCount = 3` the spans value is simply
0. -/
theorem helix_C9_underflow (c : ℕ) (h : c < 3) :
    spans c = c + (2 ^ 32 - 3) ∧
    2 ^ 32 - 3 ≤ spans c ∧
    (knotSequences c).length = c + 2 := by
  have e : (2 : ℕ) ^ 32 = 4294967296 := by norm_num
  have hs : spans c = c + (2 ^ 32 - 3) := by
    rw [spans, usub32, deg, u32, e]
    omega
  have hn : nknots c = c + 2 := by
    rw [nknots, uadd32, usub32, spans, usub32, deg, u32, e]
    omega
  refine ⟨hs, ?_, ?_⟩
  · rw [hs]
    exact Nat.le_add_left _ _
  · rw [knotSequences, List.length_map, List.length_range, hn]

/-- Claim C9, witness at `controlVertexCount = 0`. -/
theorem helix_C9_underflow_witness :
    (0 : ℕ) < 3 ∧
    (spans 0 = 0 + (2 ^ 32 - 3) ∧ 2 ^ 32 - 3 ≤ spans 0 ∧
      (knotSequences 0).length = 0 + 2) :=
  ⟨by norm_num, helix_C9_underflow 0 (by norm_num)⟩

/-- Claim C10: for every `controlVertexCount = c < 3` the generation
step appends exactly `c` control vertices and exactly
`((c - 3) mod 2^32 + 2*3 - 1) mod 2^32 = c + 2` knots: the knot-count
computation wraps a second time, so the knot list is short rather than
matching the huge wrapped spans value. -/
theorem helix_C10_short_knots (radius pitch : ℝ) (ud : Bool) (c : ℕ)
    (h : c < 3) :
    (controlVertices radius pitch c ud).length = c ∧
    (knotSequences c).length = (spans c + 2 * 3 - 1) % 2 ^ 32 ∧
    (knotSequences c).length = c + 2 := by
  have e : (2 : ℕ) ^ 32 = 4294967296 := by norm_num
  have hn : nknots c = c + 2 := by
    rw [nknots, uadd32, usub32, spans, usub32, deg, u32, e]
    omega
  refine ⟨?_, ?_, ?_⟩
  · rw [controlVertices, List.length_map, List.length_range]
  · rw [knotSequences, List.length_map, List.length_range, hn, spans,
      usub32, deg, u32, e]
    omega
  · rw [knotSequences, List.length_map, List.length_range, hn]

/-- Claim C10, witness at `controlVertexCount = 2`: 2 control vertices
and 4 knots. -/
theorem helix_C10_short_knots_witness :
    (2 : ℕ) < 3 ∧
    ((controlVertices 2 (1/4) 2 false).length = 2 ∧
      (knotSequences 2).length = (spans 2 + 2 * 3 - 1) % 2 ^ 32 ∧
      (knotSequences 2).length = 2 + 2) :=
  ⟨by norm_num, helix_C10_short_knots 2 (1/4) false 2 (by norm_num)⟩
